import Mathlib

/-!
Verification of the DTLS connection-state core (`src/dtls/src/state.rs`).

The Rust source is shallowly embedded: machine integers become `Nat`
(no arithmetic in this file can overflow: epochs are only loaded, stored
and compared), byte buffers become `List Nat`, fallible code returns
`Except DtlsError`, and an operation that can panic (an unchecked slice
index or `copy_from_slice`) returns `Option`, with `none` standing for
the panic.  Mutation of `&mut self` becomes explicit state passing:
a Rust method `fn f(&mut self, ...) -> Result<(), Error>` becomes a Lean
function `State → ... → State × Except DtlsError Unit` returning the
post-state together with the result.

External collaborators that live outside `src/` (the handshake random,
the cipher-suite capability and registry, the PRF primitive, the
reserved-label table) are modelled from the spec; each such definition
carries a doc comment starting with `Modelled from the spec:`.
-/

namespace DtlsStateSpec

/-- Error taxonomy used by `state.rs` (spec §7): each constructor is one of
the `ERR_*` values the source returns, plus `decodeError` for malformed
binary input and `other` for wrapped collaborator errors. -/
inductive DtlsError where
  | cipherSuiteUnset
  | unsupportedCipherSuiteId
  | handshakeInProgress
  | contextUnsupported
  | reservedExportKeyingMaterial
  | decodeError
  | randomLengthMismatch
  | other : String → DtlsError
deriving DecidableEq, Repr

/-- Byte buffers (`Vec<u8>` / `&[u8]`) are lists of naturals; a well-formed
byte has value < 256, which no claim here depends on. -/
abbrev Bytes := List Nat

/-- Modelled from the spec: the opaque `HandshakeRandom` collaborator
(`src/dtls/src/handshake/handshake_random.rs`, not under `src/`).  The spec
(§6) gives its contract as `encode() -> 32 bytes`, `decode(32 bytes) ->
value | error`.  We represent a random by its binary encoding. -/
structure HandshakeRandom where
  bytes : Bytes
deriving DecidableEq, Repr

/-- Constant `HANDSHAKE_RANDOM_LENGTH` from the handshake-random collaborator. -/
def HANDSHAKE_RANDOM_LENGTH : Nat := 32

/-- Modelled from the spec: `HandshakeRandom::marshal` writes the 32-byte
encoding; in the model a random is its encoding, so marshal returns it. -/
def HandshakeRandom.marshal (r : HandshakeRandom) : Bytes := r.bytes

/-- Modelled from the spec: `HandshakeRandom::unmarshal` reads exactly 32
bytes from the reader and fails when fewer are available. -/
def HandshakeRandom.unmarshal (data : Bytes) : Except DtlsError HandshakeRandom :=
  if data.length < HANDSHAKE_RANDOM_LENGTH then .error .decodeError
  else .ok ⟨data.take HANDSHAKE_RANDOM_LENGTH⟩

/-- Default `HandshakeRandom::default()`: encodes to 32 zero bytes. -/
def HandshakeRandom.deflt : HandshakeRandom := ⟨List.replicate 32 0⟩

/-- Modelled from the spec: the polymorphic cipher-suite capability
(`src/dtls/src/cipher_suite.rs`, not under `src/`).  Spec §4.1/§6 contract:
`id()`, `is_initialized()`, `init(secret, random_a, random_b, is_client)`,
`hash_func()`.  Key derivation is abstracted by recording the exact
arguments given to `init`: `key_material` is `none` until `init` runs. -/
structure CipherSuite where
  id : Nat
  hash_func : Nat
  is_initialized : Bool
  key_material : Option (Bytes × Bytes × Bytes × Bool)
deriving DecidableEq, Repr

/-- Modelled from the spec: `CipherSuite::init` derives the key schedule
from (master secret, random_a, random_b, role) and marks the capability
initialized; the model records the inputs as the derived material. -/
def CipherSuite.init (cs : CipherSuite) (secret random_a random_b : Bytes)
    (client : Bool) : Except DtlsError CipherSuite :=
  .ok { cs with is_initialized := true
                key_material := some (secret, random_a, random_b, client) }

/-- A fresh, uninitialized capability as the registry constructs it. -/
def mkCipherSuite (id hash_func : Nat) : CipherSuite :=
  { id := id, hash_func := hash_func, is_initialized := false, key_material := none }

/-- Modelled from the spec: the cipher-suite registry
`cipher_suite_for_id(id) -> capability | UnsupportedCipherSuiteId`
(spec §4.2/§6; code not under `src/`).  The registered ids are the DTLS 1.2
suites of this build; every registered suite uses the SHA-256 PRF hash
(identifier 256 in the model).  Unknown ids fail. -/
def cipher_suite_for_id (id : Nat) : Except DtlsError CipherSuite :=
  if id = 0xc02b ∨ id = 0xc02f ∨ id = 0xc00a ∨ id = 0xc014 ∨
     id = 0xc0a8 ∨ id = 0x00a8 then
    .ok (mkCipherSuite id 256)
  else
    .error .unsupportedCipherSuiteId

/-- Modelled from the spec: `INVALID_KEYING_LABELS` (spec §4.4: the fixed
reserved-label set — the standard TLS internal labels used for the
Finished-message MACs, key expansion, and the master secret). -/
def INVALID_KEYING_LABELS : List String :=
  ["client finished", "server finished", "master secret", "key expansion"]

/-- The `State` struct of `state.rs` lines 16–46.  Atomics become plain
naturals (the embedding is single-threaded), trait-object collaborators
that no modelled operation inspects (`NamedCurveKeypair`, `ReplayDetector`)
become opaque `Unit` placeholders, and enums carried only as numeric ids
(`SRTPProtectionProfile`, `NamedCurve`) become their `u16` value. -/
structure State where
  local_epoch : Nat
  remote_epoch : Nat
  local_sequence_number : List Nat
  local_random : HandshakeRandom
  remote_random : HandshakeRandom
  master_secret : Bytes
  cipher_suite : Option CipherSuite
  srtp_protection_profile : Nat
  peer_certificates : List Bytes
  is_client : Bool
  pre_master_secret : Bytes
  extended_master_secret : Bool
  named_curve : Nat
  local_keypair : Option Unit
  cookie : Bytes
  handshake_send_sequence : Int
  handshake_recv_sequence : Int
  server_name : String
  remote_requested_certificate : Bool
  local_certificates_verify : Bytes
  local_verify_data : Bytes
  local_key_signature : Bytes
  peer_certificates_verified : Bool
  replay_detector : List Unit
deriving DecidableEq, Repr

/-- The `SerializedState` struct of `state.rs` lines 48–60.  The Rust
fields `local_random`/`remote_random` have type `[u8; 32]`; the model uses
`Bytes` and carries the length-32 type invariant as a hypothesis where a
theorem needs it. -/
structure SerializedState where
  local_epoch : Nat
  remote_epoch : Nat
  local_random : Bytes
  remote_random : Bytes
  cipher_suite_id : Nat
  master_secret : Bytes
  sequence_number : Nat
  srtp_protection_profile : Nat
  peer_certificates : List Bytes
  is_client : Bool
deriving DecidableEq, Repr

/-- The default `State` literal built at the top of `Clone for State`
(`state.rs` lines 64–94): everything empty/zero, role `false`, SRTP
profile Unsupported (id 0), curve Unsupported (id 0). -/
def defaultState : State :=
  { local_epoch := 0
    remote_epoch := 0
    local_sequence_number := []
    local_random := HandshakeRandom.deflt
    remote_random := HandshakeRandom.deflt
    master_secret := []
    cipher_suite := none
    srtp_protection_profile := 0
    peer_certificates := []
    is_client := false
    pre_master_secret := []
    extended_master_secret := false
    named_curve := 0
    local_keypair := none
    cookie := []
    handshake_send_sequence := 0
    handshake_recv_sequence := 0
    server_name := ""
    remote_requested_certificate := false
    local_certificates_verify := []
    local_verify_data := []
    local_key_signature := []
    peer_certificates_verified := false
    replay_detector := [] }

/-- Embedding of `State::serialize` (`state.rs` lines 105–142).  Returns `none` for the
two panics the source can hit: `copy_from_slice` on a random whose encoding
is not exactly 32 bytes (lines 120–121), and the unchecked index
`self.local_sequence_number[local_epoch as usize]` (line 137).  The absent
cipher suite is checked (line 127) after the copies and before the index,
exactly as in the source. -/
def State.serialize (s : State) : Option (Except DtlsError SerializedState) :=
  let local_rand := s.local_random.marshal
  let remote_rand := s.remote_random.marshal
  if local_rand.length ≠ HANDSHAKE_RANDOM_LENGTH then none
  else if remote_rand.length ≠ HANDSHAKE_RANDOM_LENGTH then none
  else
    let local_epoch := s.local_epoch
    let remote_epoch := s.remote_epoch
    match s.cipher_suite with
    | none => some (.error .cipherSuiteUnset)
    | some cipher_suite =>
      if h : local_epoch < s.local_sequence_number.length then
        some (.ok
          { local_epoch := local_epoch
            remote_epoch := remote_epoch
            local_random := local_rand
            remote_random := remote_rand
            cipher_suite_id := cipher_suite.id
            master_secret := s.master_secret
            sequence_number := s.local_sequence_number.get ⟨local_epoch, h⟩
            srtp_protection_profile := s.srtp_protection_profile
            peer_certificates := s.peer_certificates
            is_client := s.is_client })
      else none

/-- The `while self.local_sequence_number.len() <= epoch { push(0) }` loop
of `state.rs` lines 152–154, in closed form: append zeros until the length
reaches `epoch + 1`; when the length already exceeds `epoch`, the
subtraction is 0 and the list is unchanged — exactly the loop's effect. -/
def growSeq (seq : List Nat) (epoch : Nat) : List Nat :=
  seq ++ List.replicate (epoch + 1 - seq.length) 0

/-- Embedding of `State::deserialize` (`state.rs` lines 144–178).  Fields are applied in
source order onto the target; an early `?` return yields the partially
overwritten state together with the error.  The final index assignment
(line 171) is in bounds because the grow loop ran first, so `List.set` is
a faithful rendering of it. -/
def State.deserialize (s : State) (serialized : SerializedState) :
    State × Except DtlsError Unit :=
  let epoch := serialized.local_epoch
  let s := { s with local_epoch := serialized.local_epoch
                    remote_epoch := serialized.remote_epoch }
  let s := { s with local_sequence_number := growSeq s.local_sequence_number epoch }
  match HandshakeRandom.unmarshal serialized.local_random with
  | .error e => (s, .error e)
  | .ok lr =>
    let s := { s with local_random := lr }
    match HandshakeRandom.unmarshal serialized.remote_random with
    | .error e => (s, .error e)
    | .ok rr =>
      let s := { s with remote_random := rr }
      let s := { s with is_client := serialized.is_client }
      let s := { s with master_secret := serialized.master_secret }
      match cipher_suite_for_id serialized.cipher_suite_id with
      | .error e => (s, .error e)
      | .ok cs =>
        let s := { s with cipher_suite := some cs }
        let s := { s with local_sequence_number :=
                     s.local_sequence_number.set epoch serialized.sequence_number }
        let s := { s with srtp_protection_profile := serialized.srtp_protection_profile }
        let s := { s with peer_certificates := serialized.peer_certificates }
        (s, .ok ())

/-- Embedding of `Clone for State` (`state.rs` lines 62–101): build the default state,
then `if let Ok(serialized) = self.serialize()` deserialize into it,
discarding the deserialize result (`let _ = ...`).  A panic inside
`serialize` propagates (`none`); a serialize *error* is swallowed and the
untouched default is returned; a deserialize error is swallowed and the
partially overwritten default is returned. -/
def State.clone (s : State) : Option State :=
  match s.serialize with
  | none => none
  | some (.error _) => some defaultState
  | some (.ok serialized) => some (defaultState.deserialize serialized).1

/-- Embedding of `State::init_cipher_suite` (`state.rs` lines 180–209): no cipher suite
⇒ `CipherSuiteUnset`; already initialized ⇒ `Ok` with nothing touched;
otherwise marshal both randoms and call `init` with (local, remote, true)
as client or (remote, local, false) as server. -/
def State.init_cipher_suite (s : State) : State × Except DtlsError Unit :=
  match s.cipher_suite with
  | none => (s, .error .cipherSuiteUnset)
  | some cipher_suite =>
    if cipher_suite.is_initialized then (s, .ok ())
    else
      let local_random := s.local_random.marshal
      let remote_random := s.remote_random.marshal
      if s.is_client then
        match cipher_suite.init s.master_secret local_random remote_random true with
        | .ok cs2 => ({ s with cipher_suite := some cs2 }, .ok ())
        | .error e => (s, .error e)
      else
        match cipher_suite.init s.master_secret remote_random local_random false with
        | .ok cs2 => ({ s with cipher_suite := some cs2 }, .ok ())
        | .error e => (s, .error e)

/-- Embedding of `State::marshal_binary` (`state.rs` lines 212–219): serialize, then
bincode-encode.  `bincode::serialize` lives outside `src/`, so the encoder
is a parameter; a `serialize` panic propagates as `none`, a bincode error
is wrapped as an opaque `other` error exactly as `Error::new(err.to_string())`
does. -/
def State.marshal_binary (enc : SerializedState → Except String Bytes)
    (s : State) : Option (Except DtlsError Bytes) :=
  match s.serialize with
  | none => none
  | some (.error e) => some (.error e)
  | some (.ok serialized) =>
    match enc serialized with
    | .ok bytes => some (.ok bytes)
    | .error msg => some (.error (.other msg))

/-- Embedding of `State::export_keying_material` (`state.rs` lines 237–276).  The PRF
primitive `prf_p_hash(secret, seed, length, hash)` lives outside `src/`
(spec §6: `derive(secret, seed, length, hash_algorithm) -> byte sequence`,
deterministic), so it is a parameter: every theorem below holds for an
arbitrary PRF. -/
def State.export_keying_material
    (prf : Bytes → Bytes → Nat → Nat → Except DtlsError Bytes)
    (s : State) (label : String) (context : Bytes) (length : Nat) :
    Except DtlsError Bytes :=
  if s.local_epoch = 0 then .error .handshakeInProgress
  else if context ≠ [] then .error .contextUnsupported
  else if INVALID_KEYING_LABELS.contains label then
    .error .reservedExportKeyingMaterial
  else
    let local_random := s.local_random.marshal
    let remote_random := s.remote_random.marshal
    let seed : Bytes :=
      if s.is_client then local_random ++ remote_random
      else remote_random ++ local_random
    match s.cipher_suite with
    | some cipher_suite => prf s.master_secret seed length cipher_suite.hash_func
    | none => .error .cipherSuiteUnset

/-! ## Concrete values for witnesses and counterexamples -/

/-- A concrete, unregistered-id capability used by concrete states below. -/
def csUnregistered : CipherSuite := mkCipherSuite 0 256

/-- A concrete registered capability (TLS_ECDHE_ECDSA_WITH_AES_128_GCM_SHA256). -/
def csRegistered : CipherSuite := mkCipherSuite 0xc02b 256

/-- A concrete 32-byte handshake random (all bytes 1). -/
def rngA : HandshakeRandom := ⟨List.replicate 32 1⟩

/-- A concrete 32-byte handshake random (all bytes 2). -/
def rngB : HandshakeRandom := ⟨List.replicate 32 2⟩

/-- A concrete deterministic stand-in PRF for instantiating theorems that
are quantified over the PRF collaborator. -/
def prfDemo : Bytes → Bytes → Nat → Nat → Except DtlsError Bytes :=
  fun secret seed length hash =>
    .ok (List.replicate length ((secret.sum + seed.sum + hash) % 256))

/-- A post-handshake client state with a registered suite. -/
def clientState : State :=
  { defaultState with
      is_client := true
      local_epoch := 1
      local_sequence_number := [0, 0]
      local_random := rngA
      remote_random := rngB
      master_secret := [9, 9, 9]
      cipher_suite := some csRegistered }

/-- The mirror server state: same master secret and suite, randoms swapped
so that client_random/server_random agree with `clientState`'s. -/
def serverState : State :=
  { defaultState with
      is_client := false
      local_epoch := 1
      local_sequence_number := [0, 0]
      local_random := rngB
      remote_random := rngA
      master_secret := [9, 9, 9]
      cipher_suite := some csRegistered }

/-! ## Helper lemmas -/

theorem unmarshal_of_length_eq (data : Bytes) (h : data.length = 32) :
    HandshakeRandom.unmarshal data = .ok ⟨data⟩ := by
  simp [HandshakeRandom.unmarshal, HANDSHAKE_RANDOM_LENGTH, h,
    List.take_of_length_le (le_of_eq h)]

theorem growSeq_length (l : List Nat) (e : Nat) :
    (growSeq l e).length = max l.length (e + 1) := by
  simp [growSeq]; omega

/-! ## Claims about the keying-material exporter -/

/-- C5: `export_keying_material` checks its preconditions in a fixed order:
local epoch 0 ⇒ `HandshakeInProgress` (regardless of context and label);
otherwise non-empty context ⇒ `ContextUnsupported`; otherwise a reserved
label ⇒ `ReservedExportLabel`. -/
theorem export_precondition_order
    (prf : Bytes → Bytes → Nat → Nat → Except DtlsError Bytes)
    (s : State) (label : String) (context : Bytes) (n : Nat) :
    (s.local_epoch = 0 →
      s.export_keying_material prf label context n =
        .error .handshakeInProgress) ∧
    (s.local_epoch ≠ 0 → context ≠ [] →
      s.export_keying_material prf label context n =
        .error .contextUnsupported) ∧
    (s.local_epoch ≠ 0 → context = [] → label ∈ INVALID_KEYING_LABELS →
      s.export_keying_material prf label context n =
        .error .reservedExportKeyingMaterial) := by
  refine ⟨fun h0 => ?_, fun h0 hc => ?_, fun h0 hc hl => ?_⟩
  · simp [State.export_keying_material, h0]
  · simp [State.export_keying_material, h0, hc]
  · simp [State.export_keying_material, h0, hc, hl]

/-- C5 witness: on a fresh (epoch-0) state the epoch check fires first even
with a reserved label and non-empty context; the later checks fire in order
once the earlier ones pass. -/
theorem export_precondition_order_witness :
    defaultState.export_keying_material prfDemo "master secret" [7] 5 =
      .error .handshakeInProgress ∧
    clientState.export_keying_material prfDemo "demo" [7] 5 =
      .error .contextUnsupported ∧
    clientState.export_keying_material prfDemo "master secret" [] 5 =
      .error .reservedExportKeyingMaterial :=
  ⟨(export_precondition_order prfDemo defaultState "master secret" [7] 5).1 rfl,
   (export_precondition_order prfDemo clientState "demo" [7] 5).2.1
     (by decide) (by decide),
   (export_precondition_order prfDemo clientState "master secret" [] 5).2.2
     (by decide) rfl (by decide)⟩

/-- C4: for a state past the handshake, the export label is validated
against the reserved set but never enters the derivation seed: any two
non-reserved labels produce identical output for every length, for every
PRF collaborator. -/
theorem export_label_not_mixed
    (prf : Bytes → Bytes → Nat → Nat → Except DtlsError Bytes)
    (s : State) (l1 l2 : String) (n : Nat)
    (he : s.local_epoch ≠ 0)
    (h1 : l1 ∉ INVALID_KEYING_LABELS) (h2 : l2 ∉ INVALID_KEYING_LABELS) :
    s.export_keying_material prf l1 [] n =
      s.export_keying_material prf l2 [] n := by
  simp [State.export_keying_material, he, h1, h2]

/-- C4 witness: two distinct non-reserved labels export the same bytes. -/
theorem export_label_not_mixed_witness :
    clientState.export_keying_material prfDemo "EXTRACTOR-dtls_srtp" [] 16 =
      clientState.export_keying_material prfDemo "some other label" [] 16 :=
  export_label_not_mixed prfDemo clientState "EXTRACTOR-dtls_srtp"
    "some other label" 16 (by decide) (by decide) (by decide)

/-- C1: a client state with randoms (Rc, Rs) and a server state with
randoms (Rs, Rc), holding the same master secret and cipher suite, export
byte-identical keying material for every non-reserved label and length —
the PRF seed is (client_random ++ server_random) regardless of role. -/
theorem export_role_symmetric
    (prf : Bytes → Bytes → Nat → Nat → Except DtlsError Bytes)
    (s1 s2 : State) (rc rs : HandshakeRandom) (label : String) (n : Nat)
    (hc1 : s1.is_client = true) (hc2 : s2.is_client = false)
    (hr1 : s1.local_random = rc) (hr2 : s1.remote_random = rs)
    (hr3 : s2.local_random = rs) (hr4 : s2.remote_random = rc)
    (hlc : rc.bytes.length = 32) (hls : rs.bytes.length = 32)
    (hms : s1.master_secret = s2.master_secret)
    (hcs : s1.cipher_suite = s2.cipher_suite)
    (he1 : s1.local_epoch ≠ 0) (he2 : s2.local_epoch ≠ 0)
    (hlabel : label ∉ INVALID_KEYING_LABELS) :
    s1.export_keying_material prf label [] n =
      s2.export_keying_material prf label [] n := by
  simp [State.export_keying_material, he1, he2, hlabel, hc1, hc2,
    hr1, hr2, hr3, hr4, hms, hcs]

/-- C1 witness: the concrete mirrored client/server pair exports
identical bytes. -/
theorem export_role_symmetric_witness :
    clientState.export_keying_material prfDemo "demo" [] 16 =
      serverState.export_keying_material prfDemo "demo" [] 16 :=
  export_role_symmetric prfDemo clientState serverState rngA rngB "demo" 16
    rfl rfl rfl rfl rfl rfl rfl rfl rfl rfl (by decide) (by decide) (by decide)

/-! ## Claims about cipher-suite initialization -/

/-- C2: on a state whose cipher suite is present and not yet initialized,
`init_cipher_suite` succeeds and hands the capability's `init` the encoded
randoms in role-dependent order — (local, remote, true) as client,
(remote, local, false) as server — so both roles present the inputs as
(client_random, server_random).  The modelled capability records the exact
arguments it was derived from in `key_material`. -/
theorem init_cipher_suite_random_order
    (s : State) (cs : CipherSuite)
    (hcs : s.cipher_suite = some cs) (hinit : cs.is_initialized = false) :
    s.init_cipher_suite =
      ({ s with cipher_suite := some (
          { cs with
              is_initialized := true
              key_material := some (s.master_secret,
                (if s.is_client then s.local_random.marshal
                 else s.remote_random.marshal),
                (if s.is_client then s.remote_random.marshal
                 else s.local_random.marshal),
                s.is_client) }) }, .ok ()) := by
  cases hclient : s.is_client <;>
    simp [State.init_cipher_suite, hcs, hinit, hclient, CipherSuite.init]

/-- C2 witness: initializing the concrete server state records
(remote_random, local_random, false) = (client_random, server_random). -/
theorem init_cipher_suite_random_order_witness :
    serverState.init_cipher_suite =
      ({ serverState with cipher_suite := some (
          { csRegistered with
              is_initialized := true
              key_material := some ([9, 9, 9],
                (if serverState.is_client then serverState.local_random.marshal
                 else serverState.remote_random.marshal),
                (if serverState.is_client then serverState.remote_random.marshal
                 else serverState.local_random.marshal),
                serverState.is_client) }) }, .ok ()) :=
  init_cipher_suite_random_order serverState csRegistered rfl rfl

/-- C8: `init_cipher_suite` is idempotent: with an absent cipher suite it
fails with `CipherSuiteUnset`; with an already-initialized suite it
succeeds touching nothing; and after any successful call a second call in
sequence succeeds and leaves the state (hence the derived key material)
unchanged. -/
theorem init_cipher_suite_idempotent (s : State) :
    (s.cipher_suite = none →
      s.init_cipher_suite = (s, .error .cipherSuiteUnset)) ∧
    (∀ cs, s.cipher_suite = some cs → cs.is_initialized = true →
      s.init_cipher_suite = (s, .ok ())) ∧
    ((s.init_cipher_suite).2 = .ok () →
      (s.init_cipher_suite).1.init_cipher_suite =
        ((s.init_cipher_suite).1, .ok ())) := by
  refine ⟨fun h => ?_, fun cs hcs hi => ?_, fun hok => ?_⟩
  · simp [State.init_cipher_suite, h]
  · simp [State.init_cipher_suite, hcs, hi]
  · cases hcs : s.cipher_suite with
    | none => simp [State.init_cipher_suite, hcs] at hok
    | some cs =>
      cases hi : cs.is_initialized with
      | true => simp [State.init_cipher_suite, hcs, hi]
      | false =>
        cases hclient : s.is_client <;>
          simp [State.init_cipher_suite, hcs, hi, hclient, CipherSuite.init]

/-- C8 witness: on the concrete client state a first call succeeds and a
second call in sequence is a success that changes nothing; a suiteless
state fails with `CipherSuiteUnset`. -/
theorem init_cipher_suite_idempotent_witness :
    ((clientState.init_cipher_suite).1.init_cipher_suite =
      ((clientState.init_cipher_suite).1, .ok ())) ∧
    defaultState.init_cipher_suite =
      (defaultState, .error .cipherSuiteUnset) :=
  ⟨(init_cipher_suite_idempotent clientState).2.2 rfl,
   (init_cipher_suite_idempotent defaultState).1 rfl⟩

/-! ## Specification lemmas for the snapshot codec -/

theorem serialize_eq (s : State) (cs : CipherSuite)
    (hcs : s.cipher_suite = some cs)
    (hl : s.local_random.bytes.length = 32)
    (hr : s.remote_random.bytes.length = 32)
    (hseq : s.local_epoch < s.local_sequence_number.length) :
    s.serialize = some (.ok
      { local_epoch := s.local_epoch
        remote_epoch := s.remote_epoch
        local_random := s.local_random.bytes
        remote_random := s.remote_random.bytes
        cipher_suite_id := cs.id
        master_secret := s.master_secret
        sequence_number := s.local_sequence_number.getD s.local_epoch 0
        srtp_protection_profile := s.srtp_protection_profile
        peer_certificates := s.peer_certificates
        is_client := s.is_client }) := by
  simp [State.serialize, HandshakeRandom.marshal, HANDSHAKE_RANDOM_LENGTH,
    hl, hr, hcs, hseq, List.getD_eq_getElem s.local_sequence_number 0 hseq]

/-- The success path of `deserialize`: with the fixed-size randoms of a
`SerializedState` (32 bytes by the Rust array type) and a registered
cipher-suite id, every field is applied and the call succeeds. -/
theorem deserialize_ok_eq (t : State) (ser : SerializedState)
    (cs2 : CipherSuite)
    (hl : ser.local_random.length = 32)
    (hr : ser.remote_random.length = 32)
    (hreg : cipher_suite_for_id ser.cipher_suite_id = .ok cs2) :
    t.deserialize ser =
      ({ t with
          local_epoch := ser.local_epoch
          remote_epoch := ser.remote_epoch
          local_sequence_number :=
            (growSeq t.local_sequence_number ser.local_epoch).set
              ser.local_epoch ser.sequence_number
          local_random := ⟨ser.local_random⟩
          remote_random := ⟨ser.remote_random⟩
          is_client := ser.is_client
          master_secret := ser.master_secret
          cipher_suite := some cs2
          srtp_protection_profile := ser.srtp_protection_profile
          peer_certificates := ser.peer_certificates }, .ok ()) := by
  rw [State.deserialize]
  rw [unmarshal_of_length_eq ser.local_random hl,
    unmarshal_of_length_eq ser.remote_random hr, hreg]

/-- The registry-failure path of `deserialize`: fields up to and including
the master secret are already overwritten, the grown sequence vector keeps
its entries, and the suite, sequence entry, SRTP profile and certificates
are untouched. -/
theorem deserialize_error_eq (t : State) (ser : SerializedState)
    (e : DtlsError)
    (hl : ser.local_random.length = 32)
    (hr : ser.remote_random.length = 32)
    (hreg : cipher_suite_for_id ser.cipher_suite_id = .error e) :
    t.deserialize ser =
      ({ t with
          local_epoch := ser.local_epoch
          remote_epoch := ser.remote_epoch
          local_sequence_number := growSeq t.local_sequence_number ser.local_epoch
          local_random := ⟨ser.local_random⟩
          remote_random := ⟨ser.remote_random⟩
          is_client := ser.is_client
          master_secret := ser.master_secret }, .error e) := by
  rw [State.deserialize]
  rw [unmarshal_of_length_eq ser.local_random hl,
    unmarshal_of_length_eq ser.remote_random hr, hreg]

/-- The registry only fails with `UnsupportedCipherSuiteId`, and it fails
exactly when the id is not registered. -/
theorem cipher_suite_for_id_not_registered (id : Nat)
    (h : ∀ cs2, cipher_suite_for_id id ≠ .ok cs2) :
    cipher_suite_for_id id = .error .unsupportedCipherSuiteId := by
  by_cases hid : id = 0xc02b ∨ id = 0xc02f ∨ id = 0xc00a ∨ id = 0xc014 ∨
      id = 0xc0a8 ∨ id = 0x00a8
  · exact absurd (by simp [cipher_suite_for_id, hid]) (h (mkCipherSuite id 256))
  · simp [cipher_suite_for_id, hid]

/-- A capability the registry returns carries the id it was looked up by. -/
theorem cipher_suite_for_id_ok_id (id : Nat) (cs2 : CipherSuite)
    (h : cipher_suite_for_id id = .ok cs2) : cs2.id = id := by
  by_cases hid : id = 0xc02b ∨ id = 0xc02f ∨ id = 0xc00a ∨ id = 0xc014 ∨
      id = 0xc0a8 ∨ id = 0x00a8
  · simp [cipher_suite_for_id, hid] at h
    rw [← h]
    rfl
  · simp [cipher_suite_for_id, hid] at h

theorem getD_set_self (l : List Nat) (i v : Nat) (h : i < l.length) :
    (l.set i v).getD i 0 = v := by
  rw [List.getD_eq_getElem (l.set i v) 0 (by simpa using h)]
  simp [h]

/-- On every path, `deserialize` leaves the sequence vector exactly as the
grow loop left it (the success path additionally sets one entry, which
preserves length): the length is `max (old length) (epoch + 1)`. -/
theorem deserialize_seq_length (t : State) (ser : SerializedState) :
    ((t.deserialize ser).1).local_sequence_number.length =
      max t.local_sequence_number.length (ser.local_epoch + 1) := by
  simp only [State.deserialize]
  split
  · simp [growSeq_length]
  · split
    · simp [growSeq_length]
    · split
      · simp [growSeq_length]
      · simp [growSeq_length]

/-! ## Claims about the snapshot codec -/

/-- C3: for a state with a negotiated (registered) cipher suite, 32-byte
random encodings and a sequence vector covering the local epoch, `serialize`
succeeds, and `deserialize` of the snapshot into any target state succeeds
and restores the epochs, current-epoch sequence number, randoms, master
secret, cipher-suite id, peer certificates and role of the original. -/
theorem serialize_deserialize_roundtrip
    (s t : State) (cs : CipherSuite)
    (hcs : s.cipher_suite = some cs)
    (hreg : ∃ cs2, cipher_suite_for_id cs.id = .ok cs2)
    (hl : s.local_random.bytes.length = 32)
    (hr : s.remote_random.bytes.length = 32)
    (hseq : s.local_epoch < s.local_sequence_number.length) :
    ∃ ser, s.serialize = some (.ok ser) ∧
      (t.deserialize ser).2 = .ok () ∧
      (t.deserialize ser).1.local_epoch = s.local_epoch ∧
      (t.deserialize ser).1.remote_epoch = s.remote_epoch ∧
      (t.deserialize ser).1.local_sequence_number.getD s.local_epoch 0 =
        s.local_sequence_number.getD s.local_epoch 0 ∧
      (t.deserialize ser).1.local_random = s.local_random ∧
      (t.deserialize ser).1.remote_random = s.remote_random ∧
      (t.deserialize ser).1.master_secret = s.master_secret ∧
      ((t.deserialize ser).1.cipher_suite).map CipherSuite.id = some cs.id ∧
      (t.deserialize ser).1.peer_certificates = s.peer_certificates ∧
      (t.deserialize ser).1.is_client = s.is_client := by
  obtain ⟨cs2, hreg⟩ := hreg
  refine ⟨_, serialize_eq s cs hcs hl hr hseq, ?_⟩
  rw [deserialize_ok_eq t _ cs2 hl hr hreg]
  refine ⟨rfl, rfl, rfl, ?_, rfl, rfl, rfl, ?_, rfl, rfl⟩
  · exact getD_set_self _ _ _ (by rw [growSeq_length]; omega)
  · simpa using cipher_suite_for_id_ok_id _ _ hreg

/-- C3 witness: the concrete client state round-trips through the codec
into a fresh default state with all listed fields preserved. -/
theorem serialize_deserialize_roundtrip_witness :
    ∃ ser, clientState.serialize = some (.ok ser) ∧
      (defaultState.deserialize ser).2 = .ok () ∧
      (defaultState.deserialize ser).1.local_epoch = clientState.local_epoch ∧
      (defaultState.deserialize ser).1.remote_epoch = clientState.remote_epoch ∧
      (defaultState.deserialize ser).1.local_sequence_number.getD
          clientState.local_epoch 0 =
        clientState.local_sequence_number.getD clientState.local_epoch 0 ∧
      (defaultState.deserialize ser).1.local_random = clientState.local_random ∧
      (defaultState.deserialize ser).1.remote_random = clientState.remote_random ∧
      (defaultState.deserialize ser).1.master_secret = clientState.master_secret ∧
      ((defaultState.deserialize ser).1.cipher_suite).map CipherSuite.id =
        some csRegistered.id ∧
      (defaultState.deserialize ser).1.peer_certificates =
        clientState.peer_certificates ∧
      (defaultState.deserialize ser).1.is_client = clientState.is_client :=
  serialize_deserialize_roundtrip clientState defaultState csRegistered rfl
    ⟨mkCipherSuite 0xc02b 256, rfl⟩ rfl rfl (by decide)

/-- C6: decoding a snapshot whose cipher-suite id is not registered fails
with `UnsupportedCipherSuiteId`, but the failed call has already
overwritten the target's epochs, randoms, role and master secret and grown
the sequence vector, while the sequence entries, cipher suite, SRTP
profile and peer certificates keep their prior values — decode is not
transactional. -/
theorem deserialize_not_transactional
    (t : State) (ser : SerializedState)
    (hl : ser.local_random.length = 32)
    (hr : ser.remote_random.length = 32)
    (hreg : ∀ cs2, cipher_suite_for_id ser.cipher_suite_id ≠ .ok cs2) :
    (t.deserialize ser).2 = .error .unsupportedCipherSuiteId ∧
    (t.deserialize ser).1.local_epoch = ser.local_epoch ∧
    (t.deserialize ser).1.remote_epoch = ser.remote_epoch ∧
    (t.deserialize ser).1.local_random.bytes = ser.local_random ∧
    (t.deserialize ser).1.remote_random.bytes = ser.remote_random ∧
    (t.deserialize ser).1.is_client = ser.is_client ∧
    (t.deserialize ser).1.master_secret = ser.master_secret ∧
    (t.deserialize ser).1.local_sequence_number =
      growSeq t.local_sequence_number ser.local_epoch ∧
    (t.deserialize ser).1.cipher_suite = t.cipher_suite ∧
    (t.deserialize ser).1.srtp_protection_profile = t.srtp_protection_profile ∧
    (t.deserialize ser).1.peer_certificates = t.peer_certificates := by
  rw [deserialize_error_eq t ser _ hl hr
    (cipher_suite_for_id_not_registered _ hreg)]
  exact ⟨rfl, rfl, rfl, rfl, rfl, rfl, rfl, rfl, rfl, rfl, rfl⟩

/-- A concrete snapshot whose cipher-suite id 0 is not registered. -/
def serUnregistered : SerializedState :=
  { local_epoch := 3
    remote_epoch := 2
    local_random := List.replicate 32 1
    remote_random := List.replicate 32 2
    cipher_suite_id := 0
    master_secret := [4, 5, 6]
    sequence_number := 7
    srtp_protection_profile := 1
    peer_certificates := [[1]]
    is_client := true }

/-- C6 witness: restoring `serUnregistered` onto the concrete server state
fails with `UnsupportedCipherSuiteId` after overwriting the fields the
source applies before the registry lookup. -/
theorem deserialize_not_transactional_witness :
    (serverState.deserialize serUnregistered).2 =
      .error .unsupportedCipherSuiteId ∧
    (serverState.deserialize serUnregistered).1.local_epoch =
      serUnregistered.local_epoch ∧
    (serverState.deserialize serUnregistered).1.remote_epoch =
      serUnregistered.remote_epoch ∧
    (serverState.deserialize serUnregistered).1.local_random.bytes =
      serUnregistered.local_random ∧
    (serverState.deserialize serUnregistered).1.remote_random.bytes =
      serUnregistered.remote_random ∧
    (serverState.deserialize serUnregistered).1.is_client =
      serUnregistered.is_client ∧
    (serverState.deserialize serUnregistered).1.master_secret =
      serUnregistered.master_secret ∧
    (serverState.deserialize serUnregistered).1.local_sequence_number =
      growSeq serverState.local_sequence_number serUnregistered.local_epoch ∧
    (serverState.deserialize serUnregistered).1.cipher_suite =
      serverState.cipher_suite ∧
    (serverState.deserialize serUnregistered).1.srtp_protection_profile =
      serverState.srtp_protection_profile ∧
    (serverState.deserialize serUnregistered).1.peer_certificates =
      serverState.peer_certificates :=
  deserialize_not_transactional serverState serUnregistered rfl rfl
    (fun cs2 h => by simp [cipher_suite_for_id, serUnregistered] at h)

/-- C9: decoding a snapshot with epoch 5 into a state whose sequence
vector is empty grows the vector to exactly `[0, 0, 0, 0, 0, n]` where `n`
is the snapshot's sequence number; and on every decode the vector only
grows, to length at least `epoch + 1`. -/
theorem deserialize_sequence_growth
    (t : State) (ser : SerializedState) (cs2 : CipherSuite)
    (ht : t.local_sequence_number = [])
    (hep : ser.local_epoch = 5)
    (hl : ser.local_random.length = 32)
    (hr : ser.remote_random.length = 32)
    (hreg : cipher_suite_for_id ser.cipher_suite_id = .ok cs2) :
    ((t.deserialize ser).2 = .ok () ∧
     (t.deserialize ser).1.local_sequence_number =
       [0, 0, 0, 0, 0, ser.sequence_number]) ∧
    ∀ (t2 : State) (ser2 : SerializedState),
      ser2.local_epoch + 1 ≤
        (t2.deserialize ser2).1.local_sequence_number.length ∧
      t2.local_sequence_number.length ≤
        (t2.deserialize ser2).1.local_sequence_number.length := by
  refine ⟨?_, fun t2 ser2 => by rw [deserialize_seq_length]; omega⟩
  rw [deserialize_ok_eq t ser cs2 hl hr hreg]
  refine ⟨rfl, ?_⟩
  rw [ht, hep]
  rfl

/-- A concrete snapshot with a registered suite and epoch 5. -/
def serEpochFive : SerializedState :=
  { local_epoch := 5
    remote_epoch := 5
    local_random := List.replicate 32 1
    remote_random := List.replicate 32 2
    cipher_suite_id := 0xc02b
    master_secret := [4, 5, 6]
    sequence_number := 42
    srtp_protection_profile := 0
    peer_certificates := []
    is_client := false }

/-- C9 witness: decoding `serEpochFive` onto the fresh default state
yields the sequence vector `[0, 0, 0, 0, 0, 42]`. -/
theorem deserialize_sequence_growth_witness :
    ((defaultState.deserialize serEpochFive).2 = .ok () ∧
     (defaultState.deserialize serEpochFive).1.local_sequence_number =
       [0, 0, 0, 0, 0, serEpochFive.sequence_number]) ∧
    ∀ (t2 : State) (ser2 : SerializedState),
      ser2.local_epoch + 1 ≤
        (t2.deserialize ser2).1.local_sequence_number.length ∧
      t2.local_sequence_number.length ≤
        (t2.deserialize ser2).1.local_sequence_number.length :=
  deserialize_sequence_growth defaultState serEpochFive
    (mkCipherSuite 0xc02b 256) rfl rfl rfl rfl rfl

/-! ## Claims about clone and the panic surface of serialize -/

/-- A state whose cipher suite's id 0 is not registered: `serialize`
succeeds on it, but the `deserialize` step inside `clone` fails at the
registry lookup after overwriting the earlier fields. -/
def cloneVictim : State :=
  { defaultState with
      is_client := true
      local_epoch := 3
      local_sequence_number := [0, 0, 0, 7]
      local_random := rngA
      remote_random := rngB
      master_secret := [1, 2, 3]
      cipher_suite := some csUnregistered }

/-- The snapshot `cloneVictim.serialize` produces. -/
def serVictim : SerializedState :=
  { local_epoch := 3
    remote_epoch := 0
    local_random := List.replicate 32 1
    remote_random := List.replicate 32 2
    cipher_suite_id := 0
    master_secret := [1, 2, 3]
    sequence_number := 7
    srtp_protection_profile := 0
    peer_certificates := []
    is_client := true }

/-- C7 counterexample: on `cloneVictim` the duplication's `deserialize`
step fails, yet `clone` returns the partially overwritten duplicate
(local epoch 3, the victim's randoms and master secret), not the
near-empty default state — refuting the claim that every failed
serialize-or-deserialize duplication yields the default. -/
theorem clone_deserialize_failure_not_default :
    cloneVictim.serialize = some (.ok serVictim) ∧
    (defaultState.deserialize serVictim).2 =
      .error .unsupportedCipherSuiteId ∧
    State.clone cloneVictim = some (defaultState.deserialize serVictim).1 ∧
    (defaultState.deserialize serVictim).1.local_epoch = 3 ∧
    State.clone cloneVictim ≠ some defaultState := by
  refine ⟨rfl, rfl, rfl, rfl, ?_⟩
  decide

/-- C7 amended: when `serialize` itself fails (in particular with
`CipherSuiteUnset` on a state without a cipher suite), `clone` discards
the error and returns the untouched near-empty default state. -/
theorem clone_serialize_error_default
    (s : State)
    (hl : s.local_random.bytes.length = 32)
    (hr : s.remote_random.bytes.length = 32)
    (hcs : s.cipher_suite = none) :
    s.serialize = some (.error .cipherSuiteUnset) ∧
    State.clone s = some defaultState := by
  have hser : s.serialize = some (.error .cipherSuiteUnset) := by
    simp [State.serialize, HandshakeRandom.marshal, HANDSHAKE_RANDOM_LENGTH,
      hl, hr, hcs]
  exact ⟨hser, by simp [State.clone, hser]⟩

/-- C7 amended-claim witness: cloning the suiteless default state swallows
`CipherSuiteUnset` and returns the default state. -/
theorem clone_serialize_error_default_witness :
    defaultState.serialize = some (.error .cipherSuiteUnset) ∧
    State.clone defaultState = some defaultState :=
  clone_serialize_error_default defaultState rfl rfl rfl

/-- A state violating the sequence-vector precondition: local epoch 1 but
an empty sequence vector. -/
def panicVictim : State := { clientState with local_sequence_number := [] }

/-- C10: `serialize` indexes the sequence vector at the local epoch with no
bounds check.  Under the precondition `local_epoch <
local_sequence_number.length` (with a present suite and 32-byte randoms)
it returns a value; a state violating the precondition makes `serialize` —
and hence `marshal_binary` and `clone` — panic (modelled as `none`) rather
than return an error value. -/
theorem serialize_index_panic
    (s : State) (cs : CipherSuite)
    (hl : s.local_random.bytes.length = 32)
    (hr : s.remote_random.bytes.length = 32)
    (hcs : s.cipher_suite = some cs) :
    (s.local_epoch < s.local_sequence_number.length →
      ∃ ser, s.serialize = some (.ok ser)) ∧
    (s.local_sequence_number.length ≤ s.local_epoch →
      s.serialize = none ∧
      State.clone s = none ∧
      ∀ enc, s.marshal_binary enc = none) := by
  refine ⟨fun h => ⟨_, serialize_eq s cs hcs hl hr h⟩, fun h => ?_⟩
  have hlt : ¬ s.local_epoch < s.local_sequence_number.length :=
    Nat.not_lt.mpr h
  have hser : s.serialize = none := by
    simp [State.serialize, HandshakeRandom.marshal, HANDSHAKE_RANDOM_LENGTH,
      hl, hr, hcs, hlt]
  exact ⟨hser, by simp [State.clone, hser],
    fun enc => by simp [State.marshal_binary, hser]⟩

/-- C10 witness: the concrete client state (epoch 1, two tracked epochs)
serializes; the same state with an emptied sequence vector makes
`serialize`, `clone` and `marshal_binary` all panic. -/
theorem serialize_index_panic_witness :
    (∃ ser, clientState.serialize = some (.ok ser)) ∧
    (panicVictim.serialize = none ∧
     State.clone panicVictim = none ∧
     ∀ enc, panicVictim.marshal_binary enc = none) :=
  ⟨(serialize_index_panic clientState csRegistered rfl rfl rfl).1 (by decide),
   (serialize_index_panic panicVictim csRegistered rfl rfl rfl).2 (by decide)⟩

end DtlsStateSpec
